import Mathlib

/-
Verification of `elasticsearch_dsl/field.py` (the typed field-schema and
serialization engine) against its natural-language specification.

The embedding is shallow:

* Python runtime values handled by the field transforms are modelled by the
  inductive type `PyVal` (None, bool, int, float, str, list, dict, datetime,
  date).  Python floats are modelled as exact rationals: the only float
  arithmetic the source performs is `data / 1000.0` on an epoch-millisecond
  integer, which the source's own comment describes as an exact
  millisecond-preserving conversion.  A `datetime` is modelled by its epoch
  offset in seconds (a rational, so sub-second precision is representable)
  together with its optional `tzinfo`; a `date` by its ordinal day number.
* Exceptions are modelled with `Except`; the error taxonomy of the spec
  (ConfigError, UnknownTypeError, CoercionError, ValidationException,
  RequiredFieldError) names the distinct `raise` sites of the source.
* Mutation (the in-place `data[:] = map(...)` and the in-place merge of
  `properties` dicts) is modelled by returning the new value.
* Python dicts are modelled as association lists whose keys are unique;
  lookup returns the first binding.
-/

/-- The error taxonomy of the specification.  In the source, `config` is the
`ValueError` raised by `construct_field`, `unknownType` the registry miss,
`coercion` the `ValueError`/`TypeError` of a failed numeric cast,
`validation` the `ValidationException` of an unparsable date, and `required`
the `ValidationException("Value required for this field.")`. -/
inductive PyErr where
  | config
  | unknownType
  | coercion
  | validation
  | required

/-- Python runtime values flowing through serialize/deserialize/clean.
`pdatetime secs tzinfo` is a `datetime` at `secs` seconds from the epoch
(rational, preserving sub-second precision) with its optional `tzinfo`;
`pdate` is a plain `datetime.date`.  `plist`/`pdict` also stand for the
`AttrList`/`AttrDict` wrappers, which compare equal to the underlying
list/dict. -/
inductive PyVal where
  | pnone
  | pbool (b : Bool)
  | pint (n : Int)
  | pfloat (q : ℚ)
  | pstr (s : String)
  | plist (l : List PyVal)
  | pdict (m : List (String × PyVal))
  | pdatetime (secs : ℚ) (tzinfo : Option String)
  | pdate (days : Int)

/-- Python truthiness (`bool(data)`), as used by `if not data`.  `None`,
`False`, numeric zero, and empty containers are falsy; `datetime`/`date`
objects are always truthy. -/
def pyTruthy : PyVal → Bool
  | .pnone => false
  | .pbool b => b
  | .pint n => n != 0
  | .pfloat q => q != 0
  | .pstr s => s != ""
  | .plist l => !l.isEmpty
  | .pdict m => !m.isEmpty
  | .pdatetime _ _ => true
  | .pdate _ => true

/-- Whether a value is a Python string (`isinstance(data, string_types)`). -/
def PyVal.isStr : PyVal → Bool
  | .pstr _ => true
  | _ => false

/-- The emptiness test of `Field.clean`, line 85: `data in (None, [], {})`.
Python membership uses `==`, and only `None`, the empty list and the empty
dict compare equal to an element of that tuple. -/
def emptyLike : PyVal → Bool
  | .pnone => true
  | .plist [] => true
  | .pdict [] => true
  | _ => false

/-- `map(self._deserialize, data)` over a Python list, left to right and
fail-fast: the first exception raised by an element propagates. -/
def mapElems (ds : PyVal → Except PyErr PyVal) : List PyVal → Except PyErr (List PyVal)
  | [] => .ok []
  | v :: rest => do
      let d ← ds v
      let r ← mapElems ds rest
      .ok (d :: r)

/-- `Field.deserialize` (field.py lines 76-80): a list (or `AttrList`) is
deserialized elementwise with the variant's `_deserialize` (the in-place
`data[:] = ...` is modelled by returning the new list); anything else goes
through `_deserialize` once.  The variant's `_deserialize` is passed in as
`ds`. -/
def fieldDsz (ds : PyVal → Except PyErr PyVal) : PyVal → Except PyErr PyVal
  | .plist l => (mapElems ds l).map PyVal.plist
  | d => ds d

/-- Lines 83-84 of `Field.clean`: `if data is not None: data = self.deserialize(data)`. -/
def cleanInput (ds : PyVal → Except PyErr PyVal) : PyVal → Except PyErr PyVal
  | .pnone => .ok .pnone
  | d => fieldDsz ds d

/-- `Field.clean` (field.py lines 82-87), parameterized by the variant's
`_deserialize` and by the `required` flag: deserialize non-null input, then
raise the required-error when the result is empty and the field is required. -/
def fieldClean (ds : PyVal → Except PyErr PyVal) (required : Bool) (data : PyVal) :
    Except PyErr PyVal :=
  match cleanInput ds data with
  | .error e => .error e
  | .ok d => if emptyLike d && required then .error .required else .ok d

/-- `Field._deserialize` (line 60-61): the base variant is the identity. -/
def idDsz (d : PyVal) : Except PyErr PyVal := .ok d

/-- `Boolean._deserialize` (field.py lines 277-282): `None` passes through,
the string literal `"false"` maps to `False`, everything else through
`bool(data)`.  Only a string can compare `==` to `"false"`. -/
def booleanDsz : PyVal → PyVal
  | .pnone => .pnone
  | .pstr s => if s = "false" then .pbool false else .pbool (pyTruthy (.pstr s))
  | d => .pbool (pyTruthy d)

/-- `Boolean._deserialize` lifted through `Field.deserialize`'s list
dispatch (it never raises). -/
def booleanFieldDsz : PyVal → PyVal
  | .plist l => .plist (l.map booleanDsz)
  | d => booleanDsz d

/-- The deserialized value `Boolean.clean` inspects: lines 285-286,
`if data is not None: data = self.deserialize(data)`. -/
def booleanCleanInput : PyVal → PyVal
  | .pnone => .pnone
  | d => booleanFieldDsz d

/-- `Boolean.clean` (field.py lines 284-289): unlike the base `clean`, the
required-error fires only when the deserialized value is `None`. -/
def booleanClean (required : Bool) (data : PyVal) : Except PyErr PyVal :=
  match booleanCleanInput data with
  | .pnone => if required then .error .required else .ok .pnone
  | d => .ok d

/-- `Date._deserialize` after the string branch (field.py lines 233-246):
`if not data: return None`; a `datetime` gets the configured default
timezone attached when it is naive; a plain `date` passes through; an `int`
is epoch milliseconds, divided by 1000.0 (exact in this model, as the
source's comment intends) and turned into a naive UTC `datetime`.  A Python
`bool` is an `int` (`True` reaches the `int` branch as 1); everything else
raises `ValidationException`. -/
def dateBody (dtz : Option String) (data : PyVal) : Except PyErr PyVal :=
  if pyTruthy data then
    match data with
    | .pdatetime secs tzi =>
        match dtz, tzi with
        | some z, Option.none => .ok (.pdatetime secs (some z))
        | _, _ => .ok (.pdatetime secs tzi)
    | .pdate d => .ok (.pdate d)
    | .pint n => .ok (.pdatetime ((n : ℚ) / 1000) Option.none)
    | .pbool b => .ok (.pdatetime ((if b then (1 : ℚ) else 0) / 1000) Option.none)
    | _ => .error .validation
  else .ok .pnone

/-- `Date._deserialize` (field.py lines 226-246).  The external flexible
date parser (`dateutil.parser.parse`, not part of this repository) is a
parameter `parse`, returning the parsed datetime's epoch seconds and
`tzinfo`, or `Option.none` when the string is unparsable — in which case the
source wraps the error in a `ValidationException` (lines 228-231).  Strings
are parsed *before* the `if not data` emptiness check. -/
def dateDsz (parse : String → Option (ℚ × Option String)) (dtz : Option String) :
    PyVal → Except PyErr PyVal
  | .pstr s =>
      match parse s with
      | some (secs, tzi) => dateBody dtz (.pdatetime secs tzi)
      | Option.none => .error .validation
  | d => dateBody dtz d

/-- Python `int()` applied to a float truncates toward zero. -/
def intTruncOfRat (q : ℚ) : Int := if 0 ≤ q then ⌊q⌋ else ⌈q⌉

/-- Whitespace stripped by Python's `int(string)`. -/
def isPySpace (c : Char) : Bool := c == ' ' || c == '\t' || c == '\n' || c == '\r'

/-- Decimal digit run: `Option.none` unless every character is a digit. -/
def digitsValCore : List Char → Nat → Option Nat
  | [], acc => some acc
  | c :: rest, acc =>
      if c.isDigit then digitsValCore rest (acc * 10 + (c.toNat - '0'.toNat))
      else Option.none

/-- Value of a non-empty run of decimal digits. -/
def digitsVal : List Char → Option Nat
  | [] => Option.none
  | ds => digitsValCore ds 0

/-- Python `int(string)`: optional surrounding whitespace, an optional sign,
then at least one decimal digit; anything else (including a float literal
such as `"3.7"`) raises `ValueError`, modelled as `Option.none`. -/
def pyIntOfStr (s : String) : Option Int :=
  match (((s.toList.dropWhile isPySpace).reverse.dropWhile isPySpace).reverse) with
  | '-' :: ds => (digitsVal ds).map (fun n => -(n : Int))
  | '+' :: ds => (digitsVal ds).map (fun n => (n : Int))
  | ds => (digitsVal ds).map (fun n => (n : Int))

/-- Python `int(data)` as invoked by `Integer._deserialize`: ints (and
bools, which are ints) pass through, floats truncate toward zero, strings
must be integer literals (otherwise `ValueError`), anything else is a
`TypeError` — both modelled as the spec's CoercionError. -/
def intCast : PyVal → Except PyErr Int
  | .pbool b => .ok (if b then 1 else 0)
  | .pint n => .ok n
  | .pfloat q => .ok (intTruncOfRat q)
  | .pstr s =>
      match pyIntOfStr s with
      | some n => .ok n
      | Option.none => .error .coercion
  | _ => .error .coercion

/-- `Integer._deserialize` (field.py lines 316-319), inherited unchanged by
`Byte`, `Short` and `Long`: `None` passes through, everything else through
`int(data)`. -/
def integerDsz : PyVal → Except PyErr PyVal
  | .pnone => .ok .pnone
  | d => (intCast d).map .pint

/-- A declared-parameter value accepted by a field constructor and emitted
by `to_dict`: the schema description format of the spec (§6) — strings,
numbers, booleans and nested mappings.  (A programmatically built `Field`
instance passed as a parameter value is outside the wire format and is not
modelled; in particular `CustomField.to_dict`'s `isinstance(self.builtin_type,
Field)` branch can only be reached from such a value.) -/
inductive Val where
  | vstr (s : String)
  | vnum (n : Int)
  | vbool (b : Bool)
  | vmap (m : List (String × Val))

/-- A Python dict of constructor parameters / a field's wire mapping. -/
abbrev Mapping := List (String × Val)

/-- Dict lookup: a Python dict has unique keys; on an association list the
first binding wins. -/
def lookupV (k : String) : Mapping → Option Val
  | [] => Option.none
  | (k', v) :: rest => if k' = k then some v else lookupV k rest

/-- Dict key removal (`params.pop(key)` / the constructor consuming a
keyword argument). -/
def removeKey (k : String) : Mapping → Mapping
  | [] => []
  | (k', v) :: rest => if k' = k then removeKey k rest else (k', v) :: removeKey k rest

/-- Modelled from the spec: the name-to-class registry of the
attribute-registry base (`DslBase`/`DslMeta` in `utils.py`, which is not
part of the sources).  Per the spec it registers every defined variant
under its `name` tag and raises UnknownTypeError on a miss.  The names are
read off the class definitions of `field.py`: every class deriving from
`Field` with a `name` tag — `Murmur3` (line 393) derives from the field
contract in no way, so it is never registered.  `double_ranged` is the
source's (misspelled) tag for `DoubleRange`. -/
def registryNames : List String :=
  ["custom", "object", "nested", "date", "string", "text", "keyword",
   "boolean", "float", "half_float", "scaled_float", "double", "integer",
   "byte", "short", "long", "ip", "binary", "geo_point", "geo_shape",
   "completion", "percolator", "integer_range", "float_range", "long_range",
   "double_ranged", "date_range", "join", "token_count"]

/-- A constructed field: its wire type name, the values popped by
`Field.__init__` for `multi` and `required` (kept whole: only their
truthiness is ever read), and the remaining declared parameters held by the
attribute-registry base.  Construction-time state that `to_dict` never
reports (`Date._default_timezone`, `InnerObject._doc_class`) is popped and
dropped. -/
structure FieldV where
  ty : String
  multi : Val
  required : Val
  params : Mapping

/-- `Field.get_dsl_class(name)(**params)`: registry lookup followed by the
variant's constructor.  `ScaledFloat.__init__` (lines 306-307) requires a
`scaling_factor` argument — calling it without one is the spec's
ConfigError — and passes it back into the declared parameters.
`Nested.__init__` (lines 211-214) defaults `multi` to true before
`Field.__init__` pops it.  `Date.__init__` (lines 220-224) pops
`default_timezone`; `InnerObject.__init__` (lines 119-121) pops
`doc_class`; `Field.__init__` (lines 49-52) pops `multi` and `required`;
the attribute-registry base stores the remaining keyword arguments as the
declared parameters ("declarative named-parameter storage" of spec §6,
`utils.py` being outside the sources). -/
def constructByName (name : String) (params : Mapping) : Except PyErr FieldV :=
  if registryNames.contains name then
    if name = "scaled_float" ∧ (lookupV "scaling_factor" params).isNone then
      .error .config
    else
      let params1 :=
        if name = "nested" ∧ (lookupV "multi" params).isNone then
          ("multi", Val.vbool true) :: params
        else params
      let multi := (lookupV "multi" params1).getD (Val.vbool false)
      let required := (lookupV "required" params1).getD (Val.vbool false)
      let params2 := removeKey "required" (removeKey "multi" params1)
      let params3 := if name = "date" then removeKey "default_timezone" params2 else params2
      let params4 :=
        if name = "object" ∨ name = "nested" then removeKey "doc_class" params3 else params3
      .ok ⟨name, multi, required, params4⟩
  else .error .unknownType

/-- The three shapes `construct_field` accepts: a raw mapping, an existing
`Field` instance, or a type-name string. -/
inductive FieldSpec where
  | fmap (m : Mapping)
  | finst (f : FieldV)
  | fname (s : String)

/-- `construct_field` (field.py lines 16-39).  A mapping spec admits no
extra params; without a `"type"` key it is an implicit object field when a
`"properties"` key is present and an error otherwise; with one, `"type"` is
popped as the dispatch key.  An existing field instance admits no extra
params and passes through.  A name string dispatches with the params. -/
def construct_field : FieldSpec → Mapping → Except PyErr FieldV
  | .fmap m, ps =>
      match ps with
      | _ :: _ => .error .config
      | [] =>
          match lookupV "type" m with
          | Option.none =>
              if (lookupV "properties" m).isSome then constructByName "object" m
              else .error .config
          | some (Val.vstr name) => constructByName name (removeKey "type" m)
          | some _ => .error .unknownType
  | .finst f, ps =>
      match ps with
      | _ :: _ => .error .config
      | [] => .ok f
  | .fname s, ps => constructByName s ps

/-- `Field.to_dict` (field.py lines 89-93) and its `CustomField` override
(lines 99-105).  The attribute-registry base serializes the declared
parameters into a mapping keyed by the type name; `Field.to_dict` pops that
single item and injects `"type": name` (overwriting any parameter that was
literally called `type`).  `CustomField.to_dict` then overwrites `"type"`
with its `builtin_type` parameter — reading it on an instance that has none
is an `AttributeError`, modelled as `Option.none`. -/
def FieldV.to_dict (f : FieldV) : Option Mapping :=
  if f.ty = "custom" then
    match lookupV "builtin_type" f.params with
    | some v => some (("type", v) :: removeKey "type" f.params)
    | Option.none => Option.none
  else some (("type", Val.vstr f.ty) :: removeKey "type" f.params)

/-- Field equivalence for the round-trip property: same wire type name and
the same declared parameters (spec §3: `multi` and `required` are field
attributes, not declared parameters — `to_dict` never reports them). -/
def FieldV.equiv (f g : FieldV) : Prop := f.ty = g.ty ∧ f.params = g.params

/-- A field of a composite schema, as the merge algorithm sees it: a leaf
field (no `properties`, no `update` method) or an inner/nested object with
its `properties` sub-schema (`InnerObject`, field.py lines 114-170).  The
tag is the field's wire type name. -/
inductive Fld where
  | leaf (ty : String)
  | obj (ty : String) (props : List (String × Fld))

/-- `properties[name]` lookup (dict semantics: first binding). -/
def lookupFld (n : String) : List (String × Fld) → Option Fld
  | [] => Option.none
  | (k, v) :: rest => if k = n then some v else lookupFld n rest

/-- In-place replacement of the value bound to an existing key (the
mutation `our[name].update(...)` performs on the shared dict entry). -/
def setFld (n : String) (v : Fld) : List (String × Fld) → List (String × Fld)
  | [] => []
  | (k, w) :: rest => if k = n then (k, v) :: rest else (k, w) :: setFld n v rest

mutual

/-- `InnerObject.update` (field.py lines 159-170).  A leaf has no `update`
method, so updating it is never attempted; updating an inner object with a
non-composite `other` (no `properties`) is a no-op; otherwise the
properties dicts are merged. -/
def Fld.update : Fld → Fld → Fld
  | .leaf t, _ => .leaf t
  | .obj t props, .leaf _ => .obj t props
  | .obj t props, .obj _ oprops => .obj t (updateProps props oprops)
termination_by _ other => sizeOf other

/-- The loop of `InnerObject.update` (lines 165-170): for each name of
`other`, an existing composite entry is merged recursively in place, an
existing leaf entry is left untouched (`continue`), and a missing name is
inserted at the end. -/
def updateProps : List (String × Fld) → List (String × Fld) → List (String × Fld)
  | our, [] => our
  | our, (n, f) :: rest =>
      match lookupFld n our with
      | some g => updateProps (setFld n (Fld.update g f) our) rest
      | Option.none => updateProps (our ++ [(n, f)]) rest
termination_by _ other => sizeOf other

end

/-- Unique keys: what a Python dict guarantees of `other.properties`. -/
def keysNodup (l : List (String × Fld)) : Prop := (l.map Prod.fst).Nodup

/-- The per-name outcome the specification predicts for the schema merge
`A.merge(B)`: a name only in `B` is inserted, a name only in `A` is kept, a
leaf conflict keeps `A`'s field unchanged, and a composite conflict merges
recursively. -/
def mergeSpec : Option Fld → Option Fld → Option Fld
  | Option.none, Option.none => Option.none
  | Option.none, some fb => some fb
  | some fa, Option.none => some fa
  | some (.leaf t), some _ => some (.leaf t)
  | some (.obj t ps), some fb => some (Fld.update (.obj t ps) fb)

/- ### Association-list lemmas -/

theorem lookupV_removeKey_self (k : String) (m : Mapping) :
    lookupV k (removeKey k m) = Option.none := by
  induction m with
  | nil => rfl
  | cons p rest ih =>
      obtain ⟨k', v⟩ := p
      by_cases h : k' = k
      · simp [removeKey, h, ih]
      · simp [removeKey, lookupV, h, ih]

theorem lookupV_removeKey_ne {k k' : String} (h : k' ≠ k) (m : Mapping) :
    lookupV k (removeKey k' m) = lookupV k m := by
  induction m with
  | nil => rfl
  | cons p rest ih =>
      obtain ⟨k'', v⟩ := p
      by_cases h2 : k'' = k'
      · have : k'' ≠ k := by simp [h2]; exact h
        simp [removeKey, lookupV, h2, this, h, ih]
      · simp [removeKey, lookupV, h2, ih]

theorem removeKey_of_lookup_none {k : String} {m : Mapping}
    (h : lookupV k m = Option.none) : removeKey k m = m := by
  induction m with
  | nil => rfl
  | cons p rest ih =>
      obtain ⟨k', v⟩ := p
      by_cases h2 : k' = k
      · simp [lookupV, h2] at h
      · simp [lookupV, h2] at h
        simp [removeKey, h2, ih h]

theorem removeKey_cons_self (k : String) (v : Val) (m : Mapping) :
    removeKey k ((k, v) :: m) = removeKey k m := by
  simp [removeKey]

/- ### Merge (C1) lemmas -/

theorem lookupFld_none_of_not_mem {n : String} {l : List (String × Fld)}
    (h : n ∉ l.map Prod.fst) : lookupFld n l = Option.none := by
  induction l with
  | nil => rfl
  | cons p rest ih =>
      obtain ⟨k, v⟩ := p
      simp only [List.map_cons, List.mem_cons] at h
      push_neg at h
      have hk : k ≠ n := fun hkn => h.1 hkn.symm
      simp [lookupFld, hk, ih h.2]

theorem lookupFld_setFld_self {n : String} {our : List (String × Fld)} {g : Fld}
    (h : lookupFld n our = some g) (v : Fld) :
    lookupFld n (setFld n v our) = some v := by
  induction our with
  | nil => simp [lookupFld] at h
  | cons p rest ih =>
      obtain ⟨k, w⟩ := p
      by_cases h2 : k = n
      · simp [setFld, lookupFld, h2]
      · simp [lookupFld, h2] at h
        simp [setFld, lookupFld, h2, ih h]

theorem lookupFld_setFld_ne {n k : String} (hne : k ≠ n) (v : Fld)
    (our : List (String × Fld)) :
    lookupFld k (setFld n v our) = lookupFld k our := by
  induction our with
  | nil => rfl
  | cons p rest ih =>
      obtain ⟨k', w⟩ := p
      by_cases h2 : k' = n
      · have hnk : n ≠ k := fun h3 => hne h3.symm
        simp [setFld, lookupFld, h2, hnk]
      · simp [setFld, lookupFld, h2, ih]

theorem lookupFld_append_self {k : String} {our : List (String × Fld)}
    (h : lookupFld k our = Option.none) (f : Fld) :
    lookupFld k (our ++ [(k, f)]) = some f := by
  induction our with
  | nil => simp [lookupFld]
  | cons p rest ih =>
      obtain ⟨k', w⟩ := p
      by_cases h2 : k' = k
      · simp [lookupFld, h2] at h
      · simp [lookupFld, h2] at h ⊢
        exact ih h

theorem lookupFld_append_ne {n k : String} (hne : n ≠ k) (f : Fld)
    (our : List (String × Fld)) :
    lookupFld k (our ++ [(n, f)]) = lookupFld k our := by
  induction our with
  | nil => simp [lookupFld, hne]
  | cons p rest ih =>
      obtain ⟨k', w⟩ := p
      by_cases h2 : k' = k
      · simp [lookupFld, h2]
      · simp [lookupFld, h2, ih]

theorem mergeSpec_some_some (a b : Fld) :
    mergeSpec (some a) (some b) = some (Fld.update a b) := by
  cases a <;> cases b <;> simp [mergeSpec, Fld.update]

theorem mergeSpec_some_none (a : Fld) : mergeSpec (some a) Option.none = some a := by
  cases a <;> rfl

theorem mergeSpec_none (b : Option Fld) : mergeSpec Option.none b = b := by
  cases b <;> rfl

theorem lookupFld_updateProps (other : List (String × Fld)) (hnd : keysNodup other) :
    ∀ (our : List (String × Fld)) (k : String),
    lookupFld k (updateProps our other) =
      mergeSpec (lookupFld k our) (lookupFld k other) := by
  induction other with
  | nil =>
      intro our k
      simp only [updateProps, lookupFld]
      cases lookupFld k our with
      | none => rw [mergeSpec_none]
      | some a => rw [mergeSpec_some_none]
  | cons p rest ih =>
      obtain ⟨n, f⟩ := p
      have hnd' : keysNodup rest := by
        simpa [keysNodup] using (List.Nodup.of_cons (by simpa [keysNodup] using hnd))
      have hnmem : n ∉ rest.map Prod.fst := by
        have := hnd
        simp only [keysNodup, List.map_cons, List.nodup_cons] at this
        exact this.1
      have hrest : lookupFld n rest = Option.none := lookupFld_none_of_not_mem hnmem
      intro our k
      by_cases hk : k = n
      · subst hk
        cases hg : lookupFld k our with
        | some g =>
            simp only [updateProps, hg]
            rw [ih hnd' (setFld k (Fld.update g f) our) k,
              lookupFld_setFld_self hg, hrest, mergeSpec_some_none]
            simp [lookupFld, mergeSpec_some_some]
        | none =>
            simp only [updateProps, hg]
            rw [ih hnd' (our ++ [(k, f)]) k, lookupFld_append_self hg, hrest,
              mergeSpec_some_none]
            simp [lookupFld, mergeSpec_none]
      · have hk' : n ≠ k := fun h => hk h.symm
        cases hg : lookupFld n our with
        | some g =>
            simp only [updateProps, hg]
            rw [ih hnd' (setFld n (Fld.update g f) our) k,
              lookupFld_setFld_ne hk (Fld.update g f) our]
            simp [lookupFld, hk']
        | none =>
            simp only [updateProps, hg]
            rw [ih hnd' (our ++ [(n, f)]) k, lookupFld_append_ne hk' f our]
            simp [lookupFld, hk']

/- ### Dispatch (C2/C6/C8) lemmas -/

theorem constructByName_ok {n : String} {p : Mapping} {f : FieldV}
    (h : constructByName n p = .ok f) :
    f.ty = n ∧
    registryNames.contains n = true ∧
    (n = "scaled_float" → (lookupV "scaling_factor" p).isSome) ∧
    lookupV "multi" f.params = Option.none ∧
    lookupV "required" f.params = Option.none ∧
    (n = "date" → lookupV "default_timezone" f.params = Option.none) ∧
    ((n = "object" ∨ n = "nested") → lookupV "doc_class" f.params = Option.none) ∧
    (∀ k, k ≠ "multi" → k ≠ "required" → k ≠ "default_timezone" → k ≠ "doc_class" →
      lookupV k f.params = lookupV k p) := by
  by_cases hreg : registryNames.contains n = true
  · by_cases hsc : n = "scaled_float" ∧ (lookupV "scaling_factor" p).isNone = true
    · rw [constructByName, if_pos hreg, if_pos hsc] at h
      exact absurd h (by simp)
    · rw [constructByName, if_pos hreg, if_neg hsc] at h
      simp only [Except.ok.injEq] at h
      subst h
      have hsc' : n = "scaled_float" → (lookupV "scaling_factor" p).isSome := by
        intro hn
        rcases ho : lookupV "scaling_factor" p with _ | v
        · exact absurd ⟨hn, by simp [ho]⟩ hsc
        · simp
      refine ⟨rfl, hreg, hsc', ?_, ?_, ?_, ?_, ?_⟩
      · repeat' split
        all_goals
          simp_all [removeKey_cons_self, lookupV_removeKey_self, lookupV_removeKey_ne]
      · repeat' split
        all_goals
          simp_all [removeKey_cons_self, lookupV_removeKey_self, lookupV_removeKey_ne]
      · intro hn
        subst hn
        repeat' split
        all_goals
          simp_all [removeKey_cons_self, lookupV_removeKey_self, lookupV_removeKey_ne]
      · intro hn
        rcases hn with hn | hn <;> subst hn <;> repeat' split
        all_goals
          simp_all [removeKey_cons_self, lookupV_removeKey_self, lookupV_removeKey_ne]
      · intro k h1 h2 h3 h4
        repeat' split
        all_goals
          simp [removeKey_cons_self, lookupV_removeKey_ne (Ne.symm h1),
            lookupV_removeKey_ne (Ne.symm h2), lookupV_removeKey_ne (Ne.symm h3),
            lookupV_removeKey_ne (Ne.symm h4)]
  · rw [constructByName, if_neg hreg] at h
    exact absurd h (by simp)

theorem constructByName_again {n : String} {p : Mapping} {f : FieldV}
    (h : constructByName n p = .ok f) :
    constructByName n f.params =
      .ok ⟨n, if n = "nested" then Val.vbool true else Val.vbool false,
        Val.vbool false, f.params⟩ := by
  obtain ⟨hty, hreg, hsc, hm, hr, hd, hdc, hlk⟩ := constructByName_ok h
  rw [constructByName, if_pos hreg, if_neg ?hscn]
  case hscn =>
    rintro ⟨hn, hnone⟩
    have hpr := hlk "scaling_factor" (by simp) (by simp) (by simp) (by simp)
    have h2 := hsc hn
    rw [hpr] at hnone
    rw [Option.isNone_iff_eq_none] at hnone
    rw [hnone] at h2
    simp at h2
  by_cases hn : n = "nested"
  · subst hn
    rw [if_pos ⟨rfl, by simp [hm]⟩]
    have hmc : removeKey "multi" (("multi", Val.vbool true) :: f.params) = f.params := by
      rw [removeKey_cons_self, removeKey_of_lookup_none hm]
    simp only [hmc, lookupV, removeKey_of_lookup_none hr]
    simp [removeKey_of_lookup_none (hdc (Or.inr rfl)), hr, Option.getD]
  · rw [if_neg (fun hc => hn hc.1)]
    simp only [removeKey_of_lookup_none hm, removeKey_of_lookup_none hr, hm, hr]
    by_cases hdt : n = "date"
    · subst hdt
      simp [removeKey_of_lookup_none (hd rfl), Option.getD]
    · rw [if_neg hdt]
      by_cases hob : n = "object"
      · subst hob
        simp [removeKey_of_lookup_none (hdc (Or.inl rfl)), Option.getD]
      · rw [if_neg (by simp [hob, hn])]
        simp [Option.getD, hn]

/- ### The claims -/

/-- C1: Schema merge is additive and first-schema-wins.  For every pair of
composite fields with properties maps `A` and `B` (`B` with unique keys, as
a Python dict has), after `A.merge(B)` — `updateProps A B` — the binding of
every name is exactly what `mergeSpec` predicts: a name present only in `B`
is inserted (the very field of `B`, the model's analogue of insertion by
reference), a name present in both where `A`'s field is a leaf keeps `A`'s
original field unchanged, a name present in both where `A`'s field is
composite is merged recursively, and a name present only in `A` is
untouched, so no field is ever replaced or deleted; and merging a
non-composite `other` (no properties map) into an inner object is a no-op. -/
theorem claim1_schema_merge (A B : List (String × Fld)) (k : String)
    (hB : keysNodup B) (ta tb : String) :
    lookupFld k (updateProps A B) = mergeSpec (lookupFld k A) (lookupFld k B)
    ∧ Fld.update (.obj ta A) (.leaf tb) = .obj ta A := by
  refine ⟨lookupFld_updateProps B hB A k, ?_⟩
  simp [Fld.update]

/-- Witness for C1 at the spec's own example: `A = {x: Text}`,
`B = {x: Keyword, y: Integer}`. -/
theorem claim1_schema_merge_witness :
    keysNodup [("x", Fld.leaf "keyword"), ("y", Fld.leaf "integer")]
    ∧ (lookupFld "x" (updateProps [("x", Fld.leaf "text")]
          [("x", Fld.leaf "keyword"), ("y", Fld.leaf "integer")])
        = mergeSpec (lookupFld "x" [("x", Fld.leaf "text")])
            (lookupFld "x" [("x", Fld.leaf "keyword"), ("y", Fld.leaf "integer")])
      ∧ Fld.update (.obj "object" [("x", Fld.leaf "text")]) (.leaf "keyword")
          = .obj "object" [("x", Fld.leaf "text")]) :=
  ⟨by simp [keysNodup], claim1_schema_merge _ _ _ (by simp [keysNodup]) _ _⟩

/-- C3 (amended): for every field whose `clean` is the base implementation
(the boolean variant overrides the emptiness check), with `required` set,
`clean(v)` fails with RequiredFieldError exactly when the deserialized
result is empty — null, the empty list, or the empty dict — so `clean(null)`,
`clean([])` and `clean({})` each fail while `clean(0)` and `clean(false)`
return the deserialized value; the deserialization runs before the
emptiness check (the test examines `cleanInput`'s result). -/
theorem claim3_required_clean (ds : PyVal → Except PyErr PyVal) :
    (∀ v d, cleanInput ds v = .ok d →
      fieldClean ds true v = if emptyLike d then .error .required else .ok d)
    ∧ fieldClean idDsz true .pnone = .error .required
    ∧ fieldClean idDsz true (.plist []) = .error .required
    ∧ fieldClean idDsz true (.pdict []) = .error .required
    ∧ fieldClean idDsz true (.pint 0) = .ok (.pint 0)
    ∧ fieldClean idDsz true (.pbool false) = .ok (.pbool false) := by
  refine ⟨?_, rfl, rfl, rfl, rfl, rfl⟩
  intro v d hvd
  simp only [fieldClean, hvd]
  cases hE : emptyLike d <;> simp [hE]

/-- Witness for C3 at a non-empty list input with the base identity
`_deserialize`. -/
theorem claim3_required_clean_witness :
    cleanInput idDsz (.plist [PyVal.pint 5]) = .ok (.plist [PyVal.pint 5])
    ∧ fieldClean idDsz true (.plist [PyVal.pint 5])
      = if emptyLike (.plist [PyVal.pint 5]) then .error .required
        else .ok (.plist [PyVal.pint 5]) :=
  ⟨rfl, (claim3_required_clean idDsz).1 _ _ rfl⟩

/-- C3 counterexample: the claim quantifies over *every* field with
`required` set, but the boolean variant overrides `clean` (field.py lines
284-289) to raise only on null: a required boolean field accepts the empty
list (an "empty" value) without a RequiredFieldError, contradicting
"clean([]) fails". -/
theorem claim3_boolean_counterexample :
    booleanClean true (.plist []) = .ok (.plist [])
    ∧ booleanClean true (.plist []) ≠ .error .required :=
  ⟨rfl, fun h => nomatch h⟩

/-- C4: the boolean variant's `_deserialize` maps null to null, the string
literal `"false"` to `False`, and every other input to its generic boolean
cast (so `deserialize(1) == true`); and a required boolean field's `clean`
raises RequiredFieldError exactly when the deserialized value is null —
in particular never when it is `false`. -/
theorem claim4_boolean :
    booleanDsz .pnone = .pnone
    ∧ booleanDsz (.pstr "false") = .pbool false
    ∧ (∀ v, v ≠ .pnone → v ≠ .pstr "false" → booleanDsz v = .pbool (pyTruthy v))
    ∧ booleanDsz (.pint 1) = .pbool true
    ∧ (∀ v, booleanClean true v = .error .required ↔ booleanCleanInput v = .pnone)
    ∧ booleanClean true (.pbool false) = .ok (.pbool false) := by
  refine ⟨rfl, rfl, ?_, rfl, ?_, rfl⟩
  · intro v h1 h2
    cases v <;> simp_all [booleanDsz, pyTruthy]
  · intro v
    cases hbc : booleanCleanInput v <;> simp [booleanClean, hbc]

/-- Witness for C4 at the truthy non-string input 2. -/
theorem claim4_boolean_witness :
    PyVal.pint 2 ≠ PyVal.pnone ∧ PyVal.pint 2 ≠ PyVal.pstr "false"
    ∧ booleanDsz (.pint 2) = .pbool (pyTruthy (.pint 2)) :=
  ⟨by simp, by simp, claim4_boolean.2.2.1 _ (by simp) (by simp)⟩

/-- C5 (amended): for every *nonzero* integer input (and whatever parser
and default timezone the field carries), the date field's `_deserialize`
interprets the value as epoch milliseconds, divides by 1000.0 and builds a
naive UTC timestamp, preserving sub-second precision exactly (floats are
exact rationals in this model); in particular 1457274681000 yields exactly
the UTC instant at epoch seconds 1457274681.  The integer 0 is caught by
the earlier `if not data` emptiness check and yields null instead (C9). -/
theorem claim5_date_epoch_millis (parse : String → Option (ℚ × Option String))
    (dtz : Option String) :
    (∀ n : Int, n ≠ 0 →
      dateDsz parse dtz (.pint n) = .ok (.pdatetime ((n : ℚ) / 1000) Option.none))
    ∧ dateDsz parse dtz (.pint 1457274681000)
      = .ok (.pdatetime 1457274681 Option.none) := by
  constructor
  · intro n hn
    simp [dateDsz, dateBody, pyTruthy, hn]
  · simp only [dateDsz, dateBody, pyTruthy]
    norm_num

/-- Witness for C5 at the spec's example input. -/
theorem claim5_date_epoch_millis_witness :
    ((1457274681000 : Int) ≠ 0)
    ∧ dateDsz (fun _ => Option.none) Option.none (.pint 1457274681000)
      = .ok (.pdatetime (((1457274681000 : Int) : ℚ) / 1000) Option.none) :=
  ⟨by norm_num,
    (claim5_date_epoch_millis (fun _ => Option.none) Option.none).1
      1457274681000 (by norm_num)⟩

/-- C5 counterexample: the claim covers *every* integer input, but the
integer 0 is falsy, so `Date._deserialize` returns null for it rather than
the epoch instant 1970-01-01T00:00:00. -/
theorem claim5_zero_counterexample :
    dateDsz (fun _ => Option.none) Option.none (.pint 0) = .ok .pnone
    ∧ dateDsz (fun _ => Option.none) Option.none (.pint 0)
      ≠ .ok (.pdatetime ((0 : ℚ) / 1000) Option.none) :=
  ⟨rfl, by simp [dateDsz, dateBody, pyTruthy]⟩

/-- C9 (amended): because the `if not data` emptiness check of
`Date._deserialize` runs before the integer branch, every falsy non-string
input deserializes to null — in particular the integer 0 yields null rather
than the epoch instant.  The empty string, however, is a string: it is
handed to the date parser *before* the emptiness check, and since it holds
no date it does not deserialize to null but fails with ValidationException
(for any parser that rejects it; a parser returning a datetime would yield
that truthy datetime — never null). -/
theorem claim9_date_falsy (parse : String → Option (ℚ × Option String))
    (dtz : Option String) :
    (∀ v, pyTruthy v = false → v.isStr = false → dateDsz parse dtz v = .ok .pnone)
    ∧ dateDsz parse dtz (.pint 0) = .ok .pnone
    ∧ (parse "" = Option.none → dateDsz parse dtz (.pstr "") = .error .validation) := by
  refine ⟨?_, rfl, ?_⟩
  · intro v hf hs
    cases v <;> simp_all [dateDsz, dateBody, PyVal.isStr]
  · intro hp
    simp [dateDsz, hp]

/-- Witness for C9 at `False` (falsy, not a string) and the empty string
with a parser that rejects it. -/
theorem claim9_date_falsy_witness :
    pyTruthy (.pbool false) = false
    ∧ PyVal.isStr (.pbool false) = false
    ∧ dateDsz (fun _ => Option.none) Option.none (.pbool false) = .ok .pnone
    ∧ (fun (_ : String) => (Option.none : Option (ℚ × Option String))) "" = Option.none
    ∧ dateDsz (fun _ => Option.none) Option.none (.pstr "") = .error .validation :=
  ⟨rfl, rfl, (claim9_date_falsy (fun _ => Option.none) Option.none).1 _ rfl rfl,
    rfl, (claim9_date_falsy (fun _ => Option.none) Option.none).2.2 rfl⟩

/-- C9 counterexample: the claim says the empty string deserializes to
null, but `""` is a string, so it reaches the parse branch first and raises
ValidationException (here with the parser that rejects the empty string,
per the spec's "fails with ValidationException on unparsable string"). -/
theorem claim9_empty_string_counterexample :
    dateDsz (fun _ => Option.none) Option.none (.pstr "") = .error .validation
    ∧ dateDsz (fun _ => Option.none) Option.none (.pstr "") ≠ .ok .pnone :=
  ⟨rfl, by simp [dateDsz]⟩

/-- C7 (amended): for the integer family (`integer`, `byte`, `short` and
`long` share `Integer._deserialize`), null maps to null and every other
input goes through Python's `int()`: ints are unchanged, floats — including
non-integral ones — are truncated toward zero rather than rejected, integer
literal strings convert, and non-numeric inputs (such as a non-numeric or
non-integral string, a list, or a dict) fail with CoercionError. -/
theorem claim7_integer_family :
    integerDsz .pnone = .ok .pnone
    ∧ (∀ n : Int, integerDsz (.pint n) = .ok (.pint n))
    ∧ (∀ q : ℚ, integerDsz (.pfloat q) = .ok (.pint (intTruncOfRat q)))
    ∧ (∀ s n, pyIntOfStr s = some n → integerDsz (.pstr s) = .ok (.pint n))
    ∧ (∀ s, pyIntOfStr s = Option.none → integerDsz (.pstr s) = .error .coercion)
    ∧ integerDsz (.pstr "not a number") = .error .coercion
    ∧ integerDsz (.pstr "3.7") = .error .coercion
    ∧ (∀ l, integerDsz (.plist l) = .error .coercion)
    ∧ (∀ m, integerDsz (.pdict m) = .error .coercion) := by
  refine ⟨rfl, fun n => rfl, fun q => rfl, ?_, ?_, rfl, rfl, fun l => rfl, fun m => rfl⟩
  · intro s n h
    simp [integerDsz, intCast, h, Except.map]
  · intro s h
    simp [integerDsz, intCast, h, Except.map]

/-- Witness for C7 at the integer literal string "12" and at "abc". -/
theorem claim7_integer_family_witness :
    pyIntOfStr "12" = some 12
    ∧ integerDsz (.pstr "12") = .ok (.pint 12)
    ∧ pyIntOfStr "abc" = Option.none
    ∧ integerDsz (.pstr "abc") = .error .coercion :=
  ⟨rfl, claim7_integer_family.2.2.2.1 "12" 12 rfl, rfl,
    claim7_integer_family.2.2.2.2.1 "abc" rfl⟩

/-- C7 counterexample: Python's `int()` does not reject a non-integral
number — `int(3.5)` is 3 — so `Integer._deserialize` succeeds on the
non-integral float 7/2 instead of failing with CoercionError. -/
theorem claim7_nonintegral_counterexample :
    integerDsz (.pfloat (7 / 2)) = .ok (.pint 3)
    ∧ integerDsz (.pfloat (7 / 2)) ≠ .error .coercion := by
  constructor
  · simp only [integerDsz, intCast, intTruncOfRat, Except.map]
    norm_num
  · exact fun h => nomatch h

/-- C2 (amended): for every field constructed through the dispatch from a
type name plus parameters (not containing a parameter literally named
`type`), except the `custom` variant whose `to_dict` reports the held
builtin type instead, `to_dict()` produces the mapping `"type": name` plus
the field's declared parameters, and resolving that mapping back through
`construct_field` reconstructs an equivalent field — same type name and
same declared parameters (`multi`/`required` are field attributes, not
declared parameters, and are never reported by `to_dict`); in particular
`resolve({"type": "text", "analyzer": "snowball"})` yields a text field
whose `to_dict()` equals `{"type": "text", "analyzer": "snowball"}`. -/
theorem claim2_to_dict_roundtrip {name : String} {params : Mapping} {f : FieldV}
    (hcu : name ≠ "custom")
    (htype : lookupV "type" params = Option.none)
    (h : construct_field (.fname name) params = .ok f) :
    (f.to_dict = some (("type", Val.vstr name) :: f.params)
      ∧ ∃ g, construct_field (.fmap (("type", Val.vstr name) :: f.params)) [] = .ok g
          ∧ FieldV.equiv f g)
    ∧ construct_field (.fmap [("type", .vstr "text"), ("analyzer", .vstr "snowball")]) []
      = .ok ⟨"text", .vbool false, .vbool false, [("analyzer", .vstr "snowball")]⟩
    ∧ FieldV.to_dict ⟨"text", .vbool false, .vbool false, [("analyzer", .vstr "snowball")]⟩
      = some [("type", .vstr "text"), ("analyzer", .vstr "snowball")] := by
  refine ⟨?_, rfl, rfl⟩
  have h' : constructByName name params = .ok f := h
  obtain ⟨hty, hreg, hsc, hm, hr, hd, hdc, hlk⟩ := constructByName_ok h'
  have htypef : lookupV "type" f.params = Option.none := by
    rw [hlk "type" (by simp) (by simp) (by simp) (by simp), htype]
  have hrem : removeKey "type" f.params = f.params := removeKey_of_lookup_none htypef
  constructor
  · rw [FieldV.to_dict, if_neg (by rw [hty]; exact hcu), hrem, hty]
  · refine ⟨⟨name, if name = "nested" then Val.vbool true else Val.vbool false,
      Val.vbool false, f.params⟩, ?_, ?_⟩
    · have hl : lookupV "type" (("type", Val.vstr name) :: f.params)
          = some (Val.vstr name) := by simp [lookupV]
      calc construct_field (.fmap (("type", Val.vstr name) :: f.params)) []
          = constructByName name (removeKey "type" (("type", Val.vstr name) :: f.params)) := by
            simp only [construct_field, hl]
        _ = _ := by
            rw [removeKey_cons_self, hrem]
            exact constructByName_again h'
    · exact ⟨by rw [hty], rfl⟩

/-- Witness for C2 at the text field with a snowball analyzer. -/
theorem claim2_to_dict_roundtrip_witness :
    ("text" : String) ≠ "custom"
    ∧ lookupV "type" [("analyzer", Val.vstr "snowball")] = Option.none
    ∧ construct_field (.fname "text") [("analyzer", Val.vstr "snowball")]
      = .ok ⟨"text", .vbool false, .vbool false, [("analyzer", Val.vstr "snowball")]⟩
    ∧ FieldV.to_dict ⟨"text", .vbool false, .vbool false, [("analyzer", Val.vstr "snowball")]⟩
      = some (("type", Val.vstr "text") :: [("analyzer", Val.vstr "snowball")])
    ∧ ∃ g, construct_field
        (.fmap (("type", Val.vstr "text") :: [("analyzer", Val.vstr "snowball")])) [] = .ok g
        ∧ FieldV.equiv ⟨"text", .vbool false, .vbool false, [("analyzer", Val.vstr "snowball")]⟩ g :=
  ⟨by simp, rfl, rfl,
    (@claim2_to_dict_roundtrip "text" [("analyzer", Val.vstr "snowball")]
      ⟨"text", .vbool false, .vbool false, [("analyzer", Val.vstr "snowball")]⟩
      (by simp) rfl rfl).1.1,
    (@claim2_to_dict_roundtrip "text" [("analyzer", Val.vstr "snowball")]
      ⟨"text", .vbool false, .vbool false, [("analyzer", Val.vstr "snowball")]⟩
      (by simp) rfl rfl).1.2⟩

/-- C2 counterexample: the `custom` variant is a constructed field, yet its
`to_dict` (field.py lines 99-105) overwrites `"type"` with the value of its
`builtin_type` parameter, so the produced mapping does not contain
`"type": "custom"`, and resolving it reconstructs a plain text field
rather than an equivalent custom field. -/
theorem claim2_custom_counterexample :
    construct_field (.fname "custom") [("builtin_type", Val.vstr "text")]
      = .ok ⟨"custom", .vbool false, .vbool false, [("builtin_type", Val.vstr "text")]⟩
    ∧ FieldV.to_dict ⟨"custom", .vbool false, .vbool false, [("builtin_type", Val.vstr "text")]⟩
      = some [("type", Val.vstr "text"), ("builtin_type", Val.vstr "text")]
    ∧ lookupV "type" [("type", Val.vstr "text"), ("builtin_type", Val.vstr "text")]
      ≠ some (Val.vstr "custom")
    ∧ construct_field (.fmap [("type", Val.vstr "text"), ("builtin_type", Val.vstr "text")]) []
      = .ok ⟨"text", .vbool false, .vbool false, [("builtin_type", Val.vstr "text")]⟩ :=
  ⟨rfl, rfl, by simp [lookupV], rfl⟩

/-- C6: when `construct_field` is given a mapping spec it fails with
ConfigError if extra params are also passed; without a `"type"` key it
constructs an object field when a `"properties"` key is present (the whole
mapping becoming the constructor parameters) and fails with ConfigError
otherwise; with a `"type"` key, that key is popped and used as the registry
dispatch key with the remaining entries as constructor parameters (the same
as dispatching on the name directly). -/
theorem claim6_construct_field_mapping :
    (∀ (m : Mapping) (q : String × Val) (ps : Mapping),
      construct_field (.fmap m) (q :: ps) = .error .config)
    ∧ (∀ m : Mapping, lookupV "type" m = Option.none →
        (lookupV "properties" m).isSome →
        construct_field (.fmap m) [] = constructByName "object" m
        ∧ ∃ f, constructByName "object" m = .ok f ∧ f.ty = "object"
            ∧ lookupV "properties" f.params = lookupV "properties" m)
    ∧ (∀ m : Mapping, lookupV "type" m = Option.none →
        lookupV "properties" m = Option.none →
        construct_field (.fmap m) [] = .error .config)
    ∧ (∀ (m : Mapping) (name : String), lookupV "type" m = some (Val.vstr name) →
        construct_field (.fmap m) [] = construct_field (.fname name) (removeKey "type" m)) := by
  refine ⟨fun m q ps => rfl, ?_, ?_, ?_⟩
  · intro m h1 h2
    constructor
    · simp only [construct_field, h1, h2, if_true]
    · have hco : constructByName "object" m = .ok ⟨"object",
          (lookupV "multi" m).getD (Val.vbool false),
          (lookupV "required" m).getD (Val.vbool false),
          removeKey "doc_class" (removeKey "required" (removeKey "multi" m))⟩ := by
        rw [constructByName, if_pos (by decide), if_neg (by simp)]
        simp
      refine ⟨_, hco, rfl, ?_⟩
      rw [lookupV_removeKey_ne (by simp), lookupV_removeKey_ne (by simp),
        lookupV_removeKey_ne (by simp)]
  · intro m h1 h2
    simp only [construct_field, h1, h2]
    simp
  · intro m name h
    simp only [construct_field, h]

/-- Witness for C6 at concrete mappings for each of the four behaviours. -/
theorem claim6_construct_field_mapping_witness :
    construct_field (.fmap [("type", Val.vstr "text")]) [("analyzer", Val.vstr "x")]
      = .error .config
    ∧ lookupV "type" [("properties", Val.vmap [])] = Option.none
    ∧ (lookupV "properties" [("properties", Val.vmap [])]).isSome
    ∧ (construct_field (.fmap [("properties", Val.vmap [])]) []
        = constructByName "object" [("properties", Val.vmap [])]
      ∧ ∃ f, constructByName "object" [("properties", Val.vmap [])] = .ok f
          ∧ f.ty = "object"
          ∧ lookupV "properties" f.params
            = lookupV "properties" [("properties", Val.vmap [])])
    ∧ lookupV "type" [("analyzer", Val.vstr "x")] = Option.none
    ∧ lookupV "properties" [("analyzer", Val.vstr "x")] = Option.none
    ∧ construct_field (.fmap [("analyzer", Val.vstr "x")]) [] = .error .config
    ∧ lookupV "type" [("type", Val.vstr "keyword"), ("normalizer", Val.vstr "n")]
      = some (Val.vstr "keyword")
    ∧ construct_field (.fmap [("type", Val.vstr "keyword"), ("normalizer", Val.vstr "n")]) []
      = construct_field (.fname "keyword")
          (removeKey "type" [("type", Val.vstr "keyword"), ("normalizer", Val.vstr "n")]) :=
  ⟨claim6_construct_field_mapping.1 _ _ _, rfl, rfl,
    claim6_construct_field_mapping.2.1 _ rfl rfl, rfl, rfl,
    claim6_construct_field_mapping.2.2.1 _ rfl rfl, rfl,
    claim6_construct_field_mapping.2.2.2 _ "keyword" rfl⟩

/-- C8: constructing a `scaled_float` field without a `scaling_factor`
parameter fails with ConfigError (the mandatory constructor argument of
`ScaledFloat.__init__` has no default), and when supplied the value is
stored among the declared parameters of the constructed field. -/
theorem claim8_scaled_float :
    (∀ ps : Mapping, lookupV "scaling_factor" ps = Option.none →
      construct_field (.fname "scaled_float") ps = .error .config)
    ∧ (∀ (ps : Mapping) (v : Val), lookupV "scaling_factor" ps = some v →
      ∃ f, construct_field (.fname "scaled_float") ps = .ok f
        ∧ f.ty = "scaled_float" ∧ lookupV "scaling_factor" f.params = some v) := by
  constructor
  · intro ps h
    show constructByName _ _ = _
    rw [constructByName, if_pos (by decide), if_pos ⟨rfl, by simp [h]⟩]
  · intro ps v h
    have hok : constructByName "scaled_float" ps = .ok ⟨"scaled_float",
        (lookupV "multi" ps).getD (Val.vbool false),
        (lookupV "required" ps).getD (Val.vbool false),
        removeKey "required" (removeKey "multi" ps)⟩ := by
      rw [constructByName, if_pos (by decide), if_neg (by simp [h])]
      simp
    refine ⟨_, hok, rfl, ?_⟩
    rw [lookupV_removeKey_ne (by simp), lookupV_removeKey_ne (by simp), h]

/-- Witness for C8: omitted and supplied `scaling_factor`. -/
theorem claim8_scaled_float_witness :
    lookupV "scaling_factor" ([("index", Val.vbool false)] : Mapping) = Option.none
    ∧ construct_field (.fname "scaled_float") [("index", Val.vbool false)] = .error .config
    ∧ lookupV "scaling_factor" ([("scaling_factor", Val.vnum 100)] : Mapping)
      = some (Val.vnum 100)
    ∧ ∃ f, construct_field (.fname "scaled_float") [("scaling_factor", Val.vnum 100)] = .ok f
        ∧ f.ty = "scaled_float" ∧ lookupV "scaling_factor" f.params = some (Val.vnum 100) :=
  ⟨rfl, claim8_scaled_float.1 _ rfl, rfl, claim8_scaled_float.2 _ _ rfl⟩

/-- C10: the class carrying the wire-type name `"murmur3"` does not derive
from the field contract, so it is never registered in the type registry:
resolving the name `"murmur3"` — with any parameters, or through a mapping
spec carrying `"type": "murmur3"` — fails with UnknownTypeError. -/
theorem claim10_murmur3_unregistered :
    (∀ ps : Mapping, construct_field (.fname "murmur3") ps = .error .unknownType)
    ∧ registryNames.contains "murmur3" = false
    ∧ (∀ m : Mapping, lookupV "type" m = some (Val.vstr "murmur3") →
        construct_field (.fmap m) [] = .error .unknownType) := by
  refine ⟨?_, by decide, ?_⟩
  · intro ps
    show constructByName _ _ = _
    rw [constructByName, if_neg (by decide)]
  · intro m h
    simp only [construct_field, h]
    show constructByName _ _ = _
    rw [constructByName, if_neg (by decide)]

/-- Witness for C10 at a mapping spec with type `"murmur3"`. -/
theorem claim10_murmur3_unregistered_witness :
    lookupV "type" [("type", Val.vstr "murmur3")] = some (Val.vstr "murmur3")
    ∧ construct_field (.fmap [("type", Val.vstr "murmur3")]) [] = .error .unknownType :=
  ⟨rfl, claim10_murmur3_unregistered.2.2 _ rfl⟩
